import Mathlib

/-!
Verification of the `TimeSeries` container from `src/time_series.py`.

The Python class wraps a pandas `Series` (an ordered mapping from timestamp
keys to float values).  We embed:

* a pandas `Series` as an association list `List (Nat × Rat)` in index order
  (timestamp keys encoded as naturals, e.g. `20230101`; values as exact
  rationals);
* the Python values that may be passed to the constructor / setter as a small
  universe `PyObj` (a pandas Series, a plain Python list, or a dict of a
  different shape), so that the `isinstance(data, pd.Series)` check in
  `_validate_input_data` is a real test;
* `TypeError` exceptions as the `PyErr` type (the spec calls the single error
  category `TypeKind`);
* the statistics of `get_summary` (`mean`, `median`, `std`, `min`, `max`)
  as exact operations on the list of values, with pandas' NaN results on
  empty input rendered as `none`, and the sample standard deviation as the
  real square root of the exact sample variance.
-/

/-- A Python value that may be handed to `TimeSeries.__init__` or to the
`data` setter: a pandas `Series` (its entries in index order), a plain Python
list of numbers, or a dict keyed differently (the "mapping of a different
shape" of the spec). -/
inductive PyObj where
  | series (entries : List (Nat × Rat))
  | pylist (elems : List Rat)
  | pydict (entries : List (String × Rat))
deriving DecidableEq

/-- `isinstance(data, pd.Series)`. -/
def PyObj.isSeries : PyObj → Bool
  | .series _ => true
  | _ => false

/-- A Python exception.  `TypeKind` is the spec's name for `TypeError`. -/
inductive PyErr where
  | TypeKind (msg : String)
deriving DecidableEq

/-- The message of the `TypeError` raised by `_validate_input_data`. -/
def seriesMsg : String := "Time series data must be a pandas Series."

/-- The `TimeSeries` object: its `_data` field holds the entries of the
stored pandas `Series` in index order, `_name` the label. -/
structure TimeSeries where
  _data : List (Nat × Rat)
  _name : String
deriving DecidableEq

namespace TimeSeries

/-- `TimeSeries._validate_input_data`: raises `TypeError` unless the argument
is a pandas `Series`. -/
def _validate_input_data (data : PyObj) : Except PyErr Unit :=
  if data.isSeries then Except.ok () else Except.error (PyErr.TypeKind seriesMsg)

/-- `TimeSeries.__init__`: validates the input, then stores data and name.
On a validation failure the exception propagates and no object is created. -/
def init (data : PyObj) (nm : String) : Except PyErr TimeSeries :=
  match _validate_input_data data with
  | Except.error e => Except.error e
  | Except.ok () =>
    match data with
    | PyObj.series entries => Except.ok ⟨entries, nm⟩
    | PyObj.pylist _ => Except.error (PyErr.TypeKind seriesMsg)
    | PyObj.pydict _ => Except.error (PyErr.TypeKind seriesMsg)

/-- The `data` property getter: `return self._data` (the stored object,
no copy). -/
def data (self : TimeSeries) : List (Nat × Rat) := self._data

/-- The `data` property setter: validates, then replaces the whole sequence.
The result is the post-state paired with the exception, if any; when
validation fails the assignment is never reached, so the state is returned
unchanged. -/
def set_data (self : TimeSeries) (new_data : PyObj) : TimeSeries × Option PyErr :=
  match _validate_input_data new_data with
  | Except.error e => (self, some e)
  | Except.ok () =>
    match new_data with
    | PyObj.series entries => ({ self with _data := entries }, none)
    | _ => (self, some (PyErr.TypeKind seriesMsg))

/-- The `name` property getter. -/
def name (self : TimeSeries) : String := self._name

/-- The `name` property setter: no validation. -/
def set_name (self : TimeSeries) (new_name : String) : TimeSeries :=
  { self with _name := new_name }

end TimeSeries

/-- `series[t] = v` on a pandas `Series`: overwrite the value at an existing
index label, otherwise append a new entry at the end (pandas enlarges the
series in place; it does not re-sort). -/
def seriesSetItem (entries : List (Nat × Rat)) (t : Nat) (v : Rat) : List (Nat × Rat) :=
  if entries.any (fun p => p.1 = t) then
    entries.map (fun p => if p.1 = t then (t, v) else p)
  else
    entries ++ [(t, v)]

/-- `TimeSeries.add_value`: `self._data[timestamp] = value`, no validation. -/
def TimeSeries.add_value (self : TimeSeries) (timestamp : Nat) (value : Rat) : TimeSeries :=
  { self with _data := seriesSetItem self._data timestamp value }

/-- The values of the stored series, in index order. -/
def vals (entries : List (Nat × Rat)) : List Rat := entries.map Prod.snd

/-- `Series.mean()`: arithmetic mean; NaN (`none`) on an empty series. -/
def pdMean (l : List Rat) : Option Rat :=
  if l.length = 0 then none else some (l.sum / (l.length : Rat))

/-- `Series.min()`: smallest value; NaN (`none`) on an empty series. -/
def pdMin : List Rat → Option Rat
  | [] => none
  | x :: xs =>
    match pdMin xs with
    | none => some x
    | some m => some (min x m)

/-- `Series.max()`: largest value; NaN (`none`) on an empty series. -/
def pdMax : List Rat → Option Rat
  | [] => none
  | x :: xs =>
    match pdMax xs with
    | none => some x
    | some m => some (max x m)

/-- Insert a value into an already sorted list of values. -/
def insertSorted (x : Rat) : List Rat → List Rat
  | [] => [x]
  | y :: ys => if x ≤ y then x :: y :: ys else y :: insertSorted x ys

/-- Sort the values ascending (insertion sort). -/
def sortVals (l : List Rat) : List Rat := l.foldr insertSorted []

/-- `Series.median()`: middle of the sorted values for odd length, the mean
of the two middle values for even length; NaN (`none`) on an empty series. -/
def pdMedian (l : List Rat) : Option Rat :=
  let s := sortVals l
  let n := s.length
  if n = 0 then none
  else if n % 2 = 1 then s[n / 2]?
  else
    match s[n / 2 - 1]?, s[n / 2]? with
    | some a, some b => some ((a + b) / 2)
    | _, _ => none

/-- The exact sample variance (denominator `n - 1`); `none` when `n < 2`,
where pandas' `Series.std()` yields NaN. -/
def sampleVar (l : List Rat) : Option Rat :=
  if l.length < 2 then none
  else
    some (((l.map (fun x => (x - l.sum / (l.length : Rat)) ^ 2)).sum) / ((l.length : Rat) - 1))

/-- `Series.std()`: the sample standard deviation, the square root of the
sample variance; NaN (`none`) when fewer than two values. -/
noncomputable def pdStd (l : List Rat) : Option ℝ :=
  (sampleVar l).map (fun q => Real.sqrt (q : ℝ))

/-- The record returned by `get_summary`, in the source's key order. -/
structure Summary where
  mean : Option Rat
  median : Option Rat
  std : Option ℝ
  min : Option Rat
  max : Option Rat
  length : Nat

/-- The summary of a series with the given entries. -/
noncomputable def summaryOf (entries : List (Nat × Rat)) : Summary :=
  ⟨pdMean (vals entries), pdMedian (vals entries), pdStd (vals entries),
   pdMin (vals entries), pdMax (vals entries), entries.length⟩

/-- `TimeSeries.get_summary`: the dict of statistics of `self._data`. -/
noncomputable def TimeSeries.get_summary (self : TimeSeries) : Summary :=
  summaryOf self._data

/-- `get_summary` as a state transition: the method body only reads
`self._data` (pandas reductions mutate nothing), so its embedding returns
the result together with the unchanged object. -/
noncomputable def TimeSeries.get_summaryRun (self : TimeSeries) : Summary × TimeSeries :=
  (self.get_summary, self)

/-- The concrete three-point series of the spec's scenarios:
`[(2023-01-01, 1.0), (2023-01-02, 3.0), (2023-01-03, 2.0)]`. -/
def demoEntries : List (Nat × Rat) := [(20230101, 1), (20230102, 3), (20230103, 2)]

/-- The states of a `TimeSeries` reachable through its public interface:
construction, whole-sequence reassignment (successful or failed), point
insertion, renaming. -/
inductive Reachable : TimeSeries → Prop where
  | of_init (obj : PyObj) (nm : String) (ts : TimeSeries) :
      TimeSeries.init obj nm = Except.ok ts → Reachable ts
  | of_set_data (ts : TimeSeries) (nd : PyObj) :
      Reachable ts → Reachable (ts.set_data nd).1
  | of_add_value (ts : TimeSeries) (t : Nat) (v : Rat) :
      Reachable ts → Reachable (ts.add_value t v)
  | of_set_name (ts : TimeSeries) (nm : String) :
      Reachable ts → Reachable (ts.set_name nm)

/-!  Object-identity model for the `data` getter (claim about aliasing).
The heap maps a Python object id to the pandas Series it holds; a
`TimeSeries` object stores a reference to its series, `return self._data`
hands that reference back unchanged, and `get_summary` dereferences it. -/

/-- A heap of pandas Series objects, keyed by object identity. -/
def Heap : Type := Nat → List (Nat × Rat)

/-- Overwrite the series stored at reference `r` (an in-place mutation of
that object, as seen by every holder of the reference). -/
def Heap.update (h : Heap) (r : Nat) (s : List (Nat × Rat)) : Heap :=
  fun r2 => if r2 = r then s else h r2

/-- A `TimeSeries` in the identity model: it holds a reference to its
series object, not a copy of it. -/
structure TimeSeriesRef where
  dataRef : Nat
  nameRef : String

/-- The `data` getter in the identity model: `return self._data` yields the
stored reference itself; no defensive copy is made. -/
def TimeSeriesRef.dataGetter (self : TimeSeriesRef) : Nat := self.dataRef

/-- `get_summary` in the identity model: read the series the stored
reference points at, then summarize it. -/
noncomputable def TimeSeriesRef.get_summaryRef (h : Heap) (self : TimeSeriesRef) : Summary :=
  summaryOf (h self.dataRef)

/-- `pdMin` of a non-empty list of values is attained and is a lower bound. -/
theorem pdMin_spec (l : List Rat) (h : l ≠ []) :
    ∃ m, pdMin l = some m ∧ m ∈ l ∧ ∀ x ∈ l, m ≤ x := by
  induction l with
  | nil => exact absurd rfl h
  | cons x xs ih =>
    cases xs with
    | nil =>
      refine ⟨x, rfl, List.mem_singleton.mpr rfl, ?_⟩
      intro z hz
      rw [List.mem_singleton.mp hz]
    | cons y ys =>
      obtain ⟨m, hm, hmem, hle⟩ := ih (by simp)
      refine ⟨min x m, by rw [pdMin, hm], ?_, ?_⟩
      · rcases le_total x m with hxm | hmx
        · rw [min_eq_left hxm]; exact List.mem_cons_self _ _
        · rw [min_eq_right hmx]; exact List.mem_cons_of_mem _ hmem
      · intro z hz
        rcases List.mem_cons.mp hz with rfl | hz
        · exact min_le_left _ _
        · exact le_trans (min_le_right _ _) (hle z hz)

/-- `pdMax` of a non-empty list of values is attained and is an upper bound. -/
theorem pdMax_spec (l : List Rat) (h : l ≠ []) :
    ∃ m, pdMax l = some m ∧ m ∈ l ∧ ∀ x ∈ l, x ≤ m := by
  induction l with
  | nil => exact absurd rfl h
  | cons x xs ih =>
    cases xs with
    | nil =>
      refine ⟨x, rfl, List.mem_singleton.mpr rfl, ?_⟩
      intro z hz
      rw [List.mem_singleton.mp hz]
    | cons y ys =>
      obtain ⟨m, hm, hmem, hle⟩ := ih (by simp)
      refine ⟨max x m, by rw [pdMax, hm], ?_, ?_⟩
      · rcases le_total x m with hxm | hmx
        · rw [max_eq_right hxm]; exact List.mem_cons_of_mem _ hmem
        · rw [max_eq_left hmx]; exact List.mem_cons_self _ _
      · intro z hz
        rcases List.mem_cons.mp hz with rfl | hz
        · exact le_max_left _ _
        · exact le_trans (hle z hz) (le_max_right _ _)

/-- The updated pair is always present after `series[t] = v`. -/
theorem mem_seriesSetItem (es : List (Nat × Rat)) (t : Nat) (v : Rat) :
    (t, v) ∈ seriesSetItem es t v := by
  unfold seriesSetItem
  by_cases hp : es.any (fun p => p.1 = t) = true
  · simp only [hp, if_true]
    obtain ⟨p, hpmem, hpt⟩ := List.any_eq_true.mp hp
    refine List.mem_map.mpr ⟨p, hpmem, ?_⟩
    simp [of_decide_eq_true hpt]
  · simp [hp]

/-- Assigning at an existing index label keeps the element count. -/
theorem seriesSetItem_length_existing (es : List (Nat × Rat)) (t : Nat) (v : Rat)
    (h : es.any (fun p => p.1 = t) = true) :
    (seriesSetItem es t v).length = es.length := by
  simp [seriesSetItem, h]

/-- Assigning at a fresh index label grows the element count by one. -/
theorem seriesSetItem_length_new (es : List (Nat × Rat)) (t : Nat) (v : Rat)
    (h : es.any (fun p => p.1 = t) = false) :
    (seriesSetItem es t v).length = es.length + 1 := by
  simp [seriesSetItem, h]

/-- C1: constructing from anything that is not a pandas Series raises
`TypeError` and produces no object; constructing from any pandas Series,
including an empty one, succeeds. -/
theorem init_validates (obj : PyObj) (nm : String) :
    (obj.isSeries = false →
      TimeSeries.init obj nm = Except.error (PyErr.TypeKind seriesMsg)) ∧
    (obj.isSeries = true → ∃ ts, TimeSeries.init obj nm = Except.ok ts) := by
  cases obj <;>
    simp [TimeSeries.init, TimeSeries._validate_input_data, PyObj.isSeries]

theorem init_validates_w :
    TimeSeries.init (PyObj.pylist [1, 2, 3]) "x" = Except.error (PyErr.TypeKind seriesMsg) ∧
    (∃ ts, TimeSeries.init (PyObj.series []) "Unnamed Series" = Except.ok ts) :=
  ⟨(init_validates (PyObj.pylist [1, 2, 3]) "x").1 rfl,
   (init_validates (PyObj.series []) "Unnamed Series").2 rfl⟩

/-- C2: assigning to `data` either fully replaces the stored sequence (when
the value is a pandas Series) or raises `TypeError` with the state left
exactly as it was (when it is not); there is no partial update. -/
theorem set_data_spec (ts : TimeSeries) (nd : PyObj) :
    (∀ es, nd = PyObj.series es →
      ts.set_data nd = ({ ts with _data := es }, none)) ∧
    (nd.isSeries = false →
      ts.set_data nd = (ts, some (PyErr.TypeKind seriesMsg))) := by
  constructor
  · intro es h
    subst h
    rfl
  · intro h
    cases nd <;>
      simp_all [TimeSeries.set_data, TimeSeries._validate_input_data, PyObj.isSeries]

theorem set_data_spec_w :
    TimeSeries.set_data ⟨demoEntries, "S"⟩ (PyObj.pydict [("a", 1)]) =
      (⟨demoEntries, "S"⟩, some (PyErr.TypeKind seriesMsg)) :=
  (set_data_spec ⟨demoEntries, "S"⟩ (PyObj.pydict [("a", 1)])).2 rfl

/-- C3: constructing from a pandas Series and reading `data` back returns a
sequence with the same timestamp/value pairs in the same order. -/
theorem construct_read_roundtrip (es : List (Nat × Rat)) (nm : String) (ts : TimeSeries)
    (h : TimeSeries.init (PyObj.series es) nm = Except.ok ts) :
    ts.data = es := by
  simp only [TimeSeries.init, TimeSeries._validate_input_data, PyObj.isSeries,
    if_true] at h
  cases h
  rfl

theorem construct_read_roundtrip_w :
    TimeSeries.data ⟨demoEntries, "S"⟩ = demoEntries :=
  construct_read_roundtrip demoEntries "S" ⟨demoEntries, "S"⟩ rfl

/-- C4: on a non-empty stored sequence, the summary's length is the element
count and its minimum, mean and maximum satisfy min ≤ mean ≤ max. -/
theorem get_summary_bounds (ts : TimeSeries) (h : ts._data ≠ []) :
    ts.get_summary.length = ts._data.length ∧
    ∃ mn mx me, ts.get_summary.min = some mn ∧ ts.get_summary.max = some mx ∧
      ts.get_summary.mean = some me ∧ mn ≤ mx ∧ mn ≤ me ∧ me ≤ mx := by
  have hv : vals ts._data ≠ [] := by
    simpa [vals] using h
  obtain ⟨mn, hmn, hmnmem, hmnle⟩ := pdMin_spec _ hv
  obtain ⟨mx, hmx, hmxmem, hmxle⟩ := pdMax_spec _ hv
  have hlen : (vals ts._data).length ≠ 0 := by
    simpa [List.length_eq_zero] using hv
  have hpos : (0 : Rat) < ((vals ts._data).length : Rat) := by
    exact_mod_cast Nat.pos_of_ne_zero hlen
  have hmean : pdMean (vals ts._data) =
      some ((vals ts._data).sum / ((vals ts._data).length : Rat)) := by
    simp [pdMean, hlen]
  have h1 : ((vals ts._data).length : Rat) * mn ≤ (vals ts._data).sum := by
    simpa [nsmul_eq_mul] using List.card_nsmul_le_sum (vals ts._data) mn hmnle
  have h2 : (vals ts._data).sum ≤ ((vals ts._data).length : Rat) * mx := by
    simpa [nsmul_eq_mul] using List.sum_le_card_nsmul (vals ts._data) mx hmxle
  refine ⟨rfl, mn, mx, (vals ts._data).sum / ((vals ts._data).length : Rat),
    hmn, hmx, hmean, hmnle mx hmxmem, ?_, ?_⟩
  · rw [le_div_iff₀ hpos]
    calc mn * ((vals ts._data).length : Rat)
        = ((vals ts._data).length : Rat) * mn := mul_comm _ _
      _ ≤ (vals ts._data).sum := h1
  · rw [div_le_iff₀ hpos]
    calc (vals ts._data).sum
        ≤ ((vals ts._data).length : Rat) * mx := h2
      _ = mx * ((vals ts._data).length : Rat) := mul_comm _ _

theorem get_summary_bounds_w :
    (⟨demoEntries, "S"⟩ : TimeSeries).get_summary.length =
        (⟨demoEntries, "S"⟩ : TimeSeries)._data.length ∧
    ∃ mn mx me,
      (⟨demoEntries, "S"⟩ : TimeSeries).get_summary.min = some mn ∧
      (⟨demoEntries, "S"⟩ : TimeSeries).get_summary.max = some mx ∧
      (⟨demoEntries, "S"⟩ : TimeSeries).get_summary.mean = some me ∧
      mn ≤ mx ∧ mn ≤ me ∧ me ≤ mx :=
  get_summary_bounds ⟨demoEntries, "S"⟩ (by decide)

/-- C5: on the series [(2023-01-01, 1.0), (2023-01-02, 3.0), (2023-01-03, 2.0)]
named "S", get_summary yields mean 2, median 2, std 1 (sample, n-1
denominator), min 1, max 3, length 3. -/
theorem demo_summary :
    ∃ ts, TimeSeries.init (PyObj.series demoEntries) "S" = Except.ok ts ∧
      ts.get_summary.mean = some 2 ∧ ts.get_summary.median = some 2 ∧
      ts.get_summary.std = some 1 ∧ ts.get_summary.min = some 1 ∧
      ts.get_summary.max = some 3 ∧ ts.get_summary.length = 3 := by
  refine ⟨⟨demoEntries, "S"⟩, rfl, ?_, rfl, ?_, rfl, rfl, rfl⟩
  · show pdMean (vals demoEntries) = some 2
    simp [pdMean, vals, demoEntries]
    norm_num
  · show pdStd (vals demoEntries) = some 1
    have h : sampleVar (vals demoEntries) = some 1 := by
      simp [sampleVar, vals, demoEntries]
      norm_num
    rw [pdStd, h]
    simp

/-- C8: `get_summary` is pure and read-only: run as a state transition it
returns exactly the summary of the current data, and the post-state (its
`data` and `name` observables included) equals the pre-state. -/
theorem get_summary_pure (ts : TimeSeries) :
    ts.get_summaryRun.1 = ts.get_summary ∧ ts.get_summaryRun.2 = ts ∧
    ts.get_summaryRun.2.data = ts.data ∧ ts.get_summaryRun.2.name = ts.name :=
  ⟨rfl, rfl, rfl, rfl⟩

/-- C9: an empty series is accepted at construction, and `get_summary` on it
does not fail: length is 0 while every statistical field is NaN (`none`). -/
theorem empty_series_summary :
    ∃ ts, TimeSeries.init (PyObj.series []) "Unnamed Series" = Except.ok ts ∧
      ts.get_summary.length = 0 ∧ ts.get_summary.mean = none ∧
      ts.get_summary.median = none ∧ ts.get_summary.std = none ∧
      ts.get_summary.min = none ∧ ts.get_summary.max = none :=
  ⟨⟨[], "Unnamed Series"⟩, rfl, rfl, rfl, rfl, rfl, rfl, rfl⟩

/-- C10: the `data` getter returns the stored series object itself (the same
reference, no defensive copy), so a mutation made through the returned
object is seen by a subsequent `get_summary` of the container. -/
theorem data_getter_aliases (h : Heap) (ts : TimeSeriesRef) (t : Nat) (v : Rat) :
    ts.dataGetter = ts.dataRef ∧
    TimeSeriesRef.get_summaryRef
        (h.update ts.dataGetter (seriesSetItem (h ts.dataGetter) t v)) ts =
      summaryOf (seriesSetItem (h ts.dataRef) t v) := by
  refine ⟨rfl, ?_⟩
  simp [TimeSeriesRef.get_summaryRef, TimeSeriesRef.dataGetter, Heap.update]

/-- C6: `add_value t v` at an existing timestamp overwrites that entry and
keeps the element count; at a fresh timestamp it grows the count by one; in
both cases the pair (t, v) is stored and an immediate `get_summary` reflects
v in its length, min, max and mean; concretely, `add_value(2023-01-04, 5.0)`
on the three-point series makes the length 4 and the max 5.0. -/
theorem add_value_spec (ts : TimeSeries) (t : Nat) (v : Rat) :
    (ts._data.any (fun p => p.1 = t) = true →
      (ts.add_value t v)._data.length = ts._data.length) ∧
    (ts._data.any (fun p => p.1 = t) = false →
      (ts.add_value t v)._data.length = ts._data.length + 1) ∧
    (t, v) ∈ (ts.add_value t v)._data ∧
    (ts.add_value t v).get_summary.length = (ts.add_value t v)._data.length ∧
    (∀ mn, (ts.add_value t v).get_summary.min = some mn → mn ≤ v) ∧
    (∀ mx, (ts.add_value t v).get_summary.max = some mx → v ≤ mx) ∧
    (ts.add_value t v).get_summary.mean =
      some ((vals (ts.add_value t v)._data).sum /
        (((ts.add_value t v)._data).length : Rat)) ∧
    (∀ ts0, TimeSeries.init (PyObj.series demoEntries) "S" = Except.ok ts0 →
      (ts0.add_value 20230104 5)._data.length = 4 ∧
      (ts0.add_value 20230104 5).get_summary.max = some 5) := by
  have hmem : (t, v) ∈ (ts.add_value t v)._data := mem_seriesSetItem ts._data t v
  have hvv : v ∈ vals (ts.add_value t v)._data :=
    List.mem_map.mpr ⟨(t, v), hmem, rfl⟩
  have hne : vals (ts.add_value t v)._data ≠ [] := List.ne_nil_of_mem hvv
  refine ⟨?_, ?_, hmem, rfl, ?_, ?_, ?_, ?_⟩
  · intro h
    exact seriesSetItem_length_existing ts._data t v h
  · intro h
    exact seriesSetItem_length_new ts._data t v h
  · intro mn hmn
    obtain ⟨m, hm, _, hle⟩ := pdMin_spec _ hne
    have hmn2 : pdMin (vals (ts.add_value t v)._data) = some mn := hmn
    rw [hm] at hmn2
    cases hmn2
    exact hle v hvv
  · intro mx hmx
    obtain ⟨m, hm, _, hle⟩ := pdMax_spec _ hne
    have hmx2 : pdMax (vals (ts.add_value t v)._data) = some mx := hmx
    rw [hm] at hmx2
    cases hmx2
    exact hle v hvv
  · have hlen : (vals (ts.add_value t v)._data).length ≠ 0 := by
      simpa [List.length_eq_zero] using hne
    have hdne : (ts.add_value t v)._data ≠ [] := by
      intro hd
      exact hne (by simp [vals, hd])
    show pdMean (vals (ts.add_value t v)._data) = _
    simp [pdMean, hlen, vals, hdne]
  · intro ts0 h0
    have h1 : ts0 = ⟨demoEntries, "S"⟩ := by
      simpa [TimeSeries.init, TimeSeries._validate_input_data, PyObj.isSeries,
        eq_comm] using h0
    subst h1
    exact ⟨rfl, rfl⟩

theorem add_value_spec_w :
    (TimeSeries.add_value ⟨demoEntries, "S"⟩ 20230104 5)._data.length =
        (⟨demoEntries, "S"⟩ : TimeSeries)._data.length + 1 ∧
    (TimeSeries.add_value ⟨demoEntries, "S"⟩ 20230102 7)._data.length =
        (⟨demoEntries, "S"⟩ : TimeSeries)._data.length :=
  ⟨(add_value_spec ⟨demoEntries, "S"⟩ 20230104 5).2.1 (by decide),
   (add_value_spec ⟨demoEntries, "S"⟩ 20230102 7).1 (by decide)⟩

/-- C7: every reachable state stores a structure that passes the Series
validation, and both boundaries that accept a whole sequence re-validate it:
construction and whole-sequence reassignment commit an object only when
`_validate_input_data` accepted it, and what is stored is exactly that
pandas Series. -/
theorem stored_always_series (ts : TimeSeries) (h : Reachable ts) :
    TimeSeries._validate_input_data (PyObj.series ts._data) = Except.ok () ∧
    (∀ obj nm ts0, TimeSeries.init obj nm = Except.ok ts0 →
      TimeSeries._validate_input_data obj = Except.ok () ∧
      obj = PyObj.series ts0._data) ∧
    (∀ ts0 nd ts1, TimeSeries.set_data ts0 nd = (ts1, none) →
      TimeSeries._validate_input_data nd = Except.ok () ∧
      nd = PyObj.series ts1._data) := by
  refine ⟨rfl, ?_, ?_⟩
  · intro obj nm ts0 h0
    cases obj with
    | series es =>
      refine ⟨rfl, ?_⟩
      have h1 : ts0 = (⟨es, nm⟩ : TimeSeries) := by
        simpa [TimeSeries.init, TimeSeries._validate_input_data, PyObj.isSeries,
          eq_comm] using h0
      rw [h1]
    | pylist l =>
      simp [TimeSeries.init, TimeSeries._validate_input_data, PyObj.isSeries] at h0
    | pydict d =>
      simp [TimeSeries.init, TimeSeries._validate_input_data, PyObj.isSeries] at h0
  · intro ts0 nd ts1 h0
    cases nd with
    | series es =>
      refine ⟨rfl, ?_⟩
      have h1 : ({ ts0 with _data := es } : TimeSeries) = ts1 := by
        simpa [TimeSeries.set_data, TimeSeries._validate_input_data,
          PyObj.isSeries] using h0
      rw [← h1]
    | pylist l =>
      simp [TimeSeries.set_data, TimeSeries._validate_input_data,
        PyObj.isSeries] at h0
    | pydict d =>
      simp [TimeSeries.set_data, TimeSeries._validate_input_data,
        PyObj.isSeries] at h0

theorem stored_always_series_w :
    TimeSeries._validate_input_data
        (PyObj.series (⟨demoEntries, "S"⟩ : TimeSeries)._data) = Except.ok () ∧
    (∀ obj nm ts0, TimeSeries.init obj nm = Except.ok ts0 →
      TimeSeries._validate_input_data obj = Except.ok () ∧
      obj = PyObj.series ts0._data) ∧
    (∀ ts0 nd ts1, TimeSeries.set_data ts0 nd = (ts1, none) →
      TimeSeries._validate_input_data nd = Except.ok () ∧
      nd = PyObj.series ts1._data) :=
  stored_always_series ⟨demoEntries, "S"⟩
    (Reachable.of_init (PyObj.series demoEntries) "S" ⟨demoEntries, "S"⟩ rfl)
